import Mathlib

/-!
Verification of the Box integration demo page (`app.js` and its variants).

The JavaScript source is shallowly embedded below.  Conventions used
throughout the embedding:

* JavaScript strings become `String`; a possibly-`undefined`/`null` string
  field becomes `Option String` (with `none` for absent).
* JavaScript numbers appearing as byte counts or HTTP statuses are
  non-negative integers and become `Nat`.  `Math.log`/`Math.floor` on such
  values is modelled over exact arithmetic (`Nat.log`), i.e. IEEE doubles
  are modelled as exact reals.
* The template-string truthiness idioms `a || b` and string interpolation
  of a possibly-`undefined` value are modelled by `jsOr` / `jsDisplay`.
* `fetch` responses are modelled as values supplied by an environment:
  a status plus the parsed JSON body; `response.ok` is `200 <= status <= 299`.
* DOM writes are modelled by returning the HTML string that the code
  assigns to the container's `innerHTML`.
-/

/-- JavaScript `a || b` on string-valued fields: `undefined` and the empty
string are falsy. -/
def jsOr (a b : Option String) : Option String :=
  match a with
  | some s => if s == "" then b else some s
  | none => b

/-- Interpolating a possibly-`undefined` string into a template string:
`undefined` renders as the text "undefined". -/
def jsDisplay (a : Option String) : String :=
  match a with
  | some s => s
  | none => "undefined"

/-- JavaScript truthiness filter on an optional string: keeps the value
only when it is present and non-empty. -/
def jsTruthyOpt (a : Option String) : Option String :=
  match a with
  | some s => if s == "" then none else some s
  | none => none

/-- `!x` on an optional string value (absent or empty string are falsy). -/
def jsFalsy (a : Option String) : Bool :=
  match a with
  | some s => s == ""
  | none => true

/-- `a || b || c` where `c` is a non-empty string literal default. -/
def jsOrD (a : Option String) (d : String) : String :=
  match jsTruthyOpt a with
  | some s => s
  | none => d

/-- `response.ok` for a fetch response: status in the 2xx success range. -/
def respOk (status : Nat) : Bool :=
  200 ≤ status && status ≤ 299

/-- Decides whether `pat` is a prefix of `cs` (over character lists). -/
def isPrefixL : List Char → List Char → Bool
  | [], _ => true
  | _ :: _, [] => false
  | a :: as, b :: bs => a == b && isPrefixL as bs

/-- Decides whether `pat` occurs as a contiguous substring of `cs`. -/
def hasSubstrL (pat : List Char) : List Char → Bool
  | [] => isPrefixL pat []
  | c :: rest => isPrefixL pat (c :: rest) || hasSubstrL pat rest

/-- `s.includes(pat)` from JavaScript: substring containment test. -/
def containsSub (s pat : String) : Bool :=
  hasSubstrL pat.data s.data

/- ### Byte-size formatter (`formatFileSize`, identical in every variant)

```js
formatFileSize(bytes) {
    if (bytes === 0) return '0 Bytes';
    const k = 1024;
    const sizes = ['Bytes', 'KB', 'MB', 'GB', 'TB'];
    const i = Math.floor(Math.log(bytes) / Math.log(k));
    return parseFloat((bytes / Math.pow(k, i)).toFixed(2)) + ' ' + sizes[i];
}
```
-/

/-- The fixed five-entry unit table `sizes`. -/
def sizesTable : List String := ["Bytes", "KB", "MB", "GB", "TB"]

/-- JavaScript array indexing `l[i]`: out-of-range access yields `undefined`,
which stringifies to the literal text "undefined". -/
def jsIndex (l : List String) (i : Nat) : String :=
  (l.get? i).getD "undefined"

/-- `Math.floor(Math.log bytes / Math.log 1024)`, idealized over exact
arithmetic as the floor of the base-1024 logarithm.  The program
evaluates this expression with IEEE doubles and an
implementation-approximated `Math.log` (ECMAScript pins no accuracy),
and within a few ulps of a power of 1024 — e.g. at `1024 ^ 5 - 1` — the
double evaluation can land on the other side of the integer than the
exact floor does.  This idealization is therefore NOT relied on near
those boundaries: the only theorem below that reaches `formatFileSize`
applies it to a file whose `size` field is absent, so the branch is
never taken. -/
def sizeUnitIndex (bytes : Nat) : Nat := Nat.log 1024 bytes

/-- `(bytes / 1024^i).toFixed(2)` as an integer number of hundredths:
round half up of `100 * bytes / 1024^i` (the quotient `bytes / 1024^i` is
exactly representable as a double for all byte counts considered, and
`toFixed` rounds ties away from zero). -/
def roundedCentis (bytes i : Nat) : Nat :=
  (200 * bytes + 1024 ^ i) / (2 * 1024 ^ i)

/-- Renders a number of hundredths the way
`parseFloat(x.toFixed(2)).toString()` does: at most two decimal places,
trailing zeros (and a trailing decimal point) dropped. -/
def centisToString (m : Nat) : String :=
  let ip := m / 100
  let fr := m % 100
  if fr == 0 then toString ip
  else if fr % 10 == 0 then toString ip ++ "." ++ toString (fr / 10)
  else if fr < 10 then toString ip ++ ".0" ++ toString fr
  else toString ip ++ "." ++ toString fr

/-- `formatFileSize` from the source (all variants share this body). -/
def formatFileSize (bytes : Nat) : String :=
  if bytes == 0 then "0 Bytes"
  else
    let i := sizeUnitIndex bytes
    centisToString (roundedCentis bytes i) ++ " " ++ jsIndex sizesTable i

/- ### Query-parameter model (`URLSearchParams`, `getParameter`,
`getParametersObject`)

The page's only input is `window.location.search`.  The platform's
`URLSearchParams` is modelled structurally: strip one leading question
mark, split the rest on ampersands, skip empty pieces, and split each
piece at its first equals sign (no equals sign gives the empty value).
Percent-decoding and plus-to-space decoding are modelled as the identity,
so the model is faithful on query strings containing no percent escape
and no plus sign.  `URLSearchParams.get` returns the value of the FIRST
pair with the given name (WHATWG), while the repository's
`getParametersObject` loop overwrites, keeping the LAST value.
-/

/-- Strip the single leading question mark, as the `URLSearchParams`
constructor does on `window.location.search`. -/
def stripLeadingQuestion (cs : List Char) : List Char :=
  match cs with
  | [] => []
  | c :: rest => if c = '?' then rest else c :: rest

/-- Split a character list on the ampersand separator. -/
def splitAmp : List Char → List (List Char)
  | [] => [[]]
  | c :: rest =>
    if c = '&' then [] :: splitAmp rest
    else
      match splitAmp rest with
      | [] => [[c]]
      | p :: ps => (c :: p) :: ps

/-- Split one piece at its first equals sign: the name is everything
before it, the value everything after (empty when there is none). -/
def splitFirstEq : List Char → List Char × List Char
  | [] => ([], [])
  | c :: rest =>
    if c = '=' then ([], rest)
    else
      let kv := splitFirstEq rest
      (c :: kv.1, kv.2)

/-- Parse a query string into its ordered name/value pairs. -/
def parsePairsL (cs : List Char) : List (List Char × List Char) :=
  ((splitAmp (stripLeadingQuestion cs)).filter (fun p => !p.isEmpty)).map
    splitFirstEq

/-- Join pieces with ampersands (the form-urlencoded serializer). -/
def joinAmp : List (List Char) → List Char
  | [] => []
  | [p] => p
  | p :: q :: rest => p ++ '&' :: joinAmp (q :: rest)

/-- Serialize name/value pairs back to a query string
(`URLSearchParams.toString`, with the codec modelled as the identity). -/
def serializePairsL (ps : List (List Char × List Char)) : List Char :=
  joinAmp (ps.map (fun kv => kv.1 ++ '=' :: kv.2))

/-- The entries of `new URLSearchParams(q)`, as strings. -/
def searchEntries (q : String) : List (String × String) :=
  (parsePairsL q.data).map (fun kv => (String.mk kv.1, String.mk kv.2))

/-- First-match association lookup (the behavior of
`URLSearchParams.get`). -/
def lookupFirst : List (String × String) → String → Option String
  | [], _ => none
  | (k, v) :: rest, key => if k == key then some v else lookupFirst rest key

/-- Last-match association lookup. -/
def lookupLast : List (String × String) → String → Option String
  | [], _ => none
  | (k, v) :: rest, key =>
    match lookupLast rest key with
    | some v' => some v'
    | none => if k == key then some v else none

/-- `getParameter(key)` from the source: `urlParams.get(key)`, i.e. the
first value for the key, or null. -/
def getParameter (q key : String) : Option String :=
  lookupFirst (searchEntries q) key

/-- One step of the `getParametersObject` loop: `params[key] = value`
on a plain object, replacing any existing entry for the key. -/
def objSet (acc : List (String × String)) (kv : String × String) :
    List (String × String) :=
  match acc with
  | [] => [kv]
  | (k, v) :: rest =>
    if k == kv.1 then (k, kv.2) :: rest else (k, v) :: objSet rest kv

/-- Property read on the accumulated object. -/
def objGet (obj : List (String × String)) (key : String) : Option String :=
  lookupFirst obj key

/-- `getParametersObject()` from the source: iterate over the entries and
assign each into a plain object (later duplicates overwrite). -/
def getParametersObject (q : String) : List (String × String) :=
  (searchEntries q).foldl objSet []

/-- `urlParams.toString()` after parsing `q`. -/
def reserializeQuery (q : String) : String :=
  String.mk (serializePairsL (parsePairsL q.data))

/- ### HTML escaping and the parameter renderer

```js
escapeHtml(text) {
    const div = document.createElement('div');
    div.textContent = text;
    return div.innerHTML;
}
```
Assigning `textContent` and reading back `innerHTML` entity-encodes the
three characters that the HTML text-node serializer escapes: ampersand,
less-than and greater-than (quotes are left as-is).
-/

/-- Escape one character the way the HTML fragment serializer does for
text nodes. -/
def escChar (c : Char) : List Char :=
  if c = '&' then "&amp;".data
  else if c = '<' then "&lt;".data
  else if c = '>' then "&gt;".data
  else [c]

/-- `escapeHtml` from the source. -/
def escapeHtml (s : String) : String :=
  String.mk (s.data.foldr (fun c acc => escChar c ++ acc) [])

/-- `createParameterItem(key, value)` (identical in every variant): both
the key and the value pass through `escapeHtml` before insertion. -/
def createParameterItem (key value : String) : String :=
  "\n            <div class=\"parameter-item\">\n                <span class=\"parameter-name\">"
    ++ escapeHtml key
    ++ ":</span>\n                <span class=\"parameter-value\">"
    ++ escapeHtml value
    ++ "</span>\n                <button class=\"copy-button\" onclick=\"boxApp.copyToClipboard(\x27"
    ++ escapeHtml key
    ++ "\x27)\">Copy</button>\n            </div>\n        "

/- ### Clipboard copier (third variant, `copyToClipboard` /
`showCopyFeedback`)

```js
copyToClipboard(elementId) {
    let textToCopy;
    if (elementId === 'current-url') {
        textToCopy = window.location.href;
    } else if (elementId.startsWith('file-id-')) {
        const fileId = elementId.replace('file-id-', '');
        textToCopy = fileId;
    } else {
        const urlParams = new URLSearchParams(window.location.search);
        textToCopy = urlParams.get(elementId) || '';
    }
    navigator.clipboard.writeText(textToCopy).then(() => {
        this.showCopyFeedback(event.target);
    }).catch(err => { ... this.showError('Failed to copy to clipboard'); });
}
```
`showCopyFeedback` shows the transient "Copied!" state and reverts it
after 1000 milliseconds; `showError` is a blocking alert.
-/

/-- The delay, in milliseconds, after which `showCopyFeedback` reverts
the button to its prior label and background. -/
def copyFeedbackRevertDelayMs : Nat := 1000

/-- What the user sees after a copy attempt: either the transient
"Copied!" confirmation of `showCopyFeedback`, or the `showError` alert. -/
inductive CopyFeedback where
  | confirmation
  | failureAlert (msg : String)
deriving DecidableEq

/-- Outcome of one `copyToClipboard` invocation: the text handed to
`navigator.clipboard.writeText`, and the feedback surfaced. -/
structure CopyResult where
  written : String
  feedback : CopyFeedback
deriving DecidableEq

/-- `elementId.replace('file-id-', '')`: JavaScript `replace` with a
string pattern removes only the first occurrence. -/
def removeFirstOccurrence (pat : List Char) (cs : List Char) : List Char :=
  match cs with
  | [] => []
  | c :: rest =>
    if isPrefixL pat (c :: rest) then List.drop pat.length (c :: rest)
    else c :: removeFirstOccurrence pat rest

/-- `copyToClipboard` from the third variant: `q` stands for
`window.location.search`, `href` for `window.location.href`, and
`clipboardOk t` tells whether `navigator.clipboard.writeText(t)`
resolves. -/
def copyToClipboard (elementId q href : String)
    (clipboardOk : String → Bool) : CopyResult :=
  let textToCopy :=
    if elementId == "current-url" then href
    else if isPrefixL "file-id-".data elementId.data then
      String.mk (removeFirstOccurrence "file-id-".data elementId.data)
    else
      match jsOr (getParameter q elementId) (some "") with
      | some s => s
      | none => ""
  if clipboardOk textToCopy then
    { written := textToCopy, feedback := .confirmation }
  else
    { written := textToCopy,
      feedback := .failureAlert "Failed to copy to clipboard" }

/- ### Token acquisition (second variant, `getAccessToken` with the
two-method client-credentials fallback)

```js
async getAccessToken(clientId, clientSecret) {
    const authMethods = [
        { grant_type: 'client_credentials', client_id: clientId,
          client_secret: clientSecret },
        { grant_type: 'client_credentials', client_id: clientId,
          client_secret: clientSecret, box_subject_type: 'enterprise' } ];
    for (let i = 0; i < authMethods.length; i++) {
        try {
            const response = await fetch('https://api.box.com/oauth2/token',
                { ... body: new URLSearchParams(authMethods[i]) });
            if (response.ok) { return await response.json(); }
            else {
                const errorData = await response.json();
                if (i === authMethods.length - 1) {
                    throw new Error(`Token request failed: ` +
                        `${response.status} - ` +
                        `${errorData.error_description || errorData.error}`);
                }
            }
        } catch (error) {
            if (i === authMethods.length - 1) { throw error; }
        }
    }
}
```
-/

/-- Parsed JSON body of a token-endpoint response. -/
structure TokenBody where
  access_token : Option String
  error_description : Option String
  error : Option String
deriving DecidableEq

/-- What one token-endpoint attempt did: either a response was received
and its body parsed, or some step inside the `try` block threw. -/
inductive AttemptOutcome where
  | response (status : Nat) (body : TokenBody)
  | thrown (msg : String)
deriving DecidableEq

/-- A network request issued by the app, as observed on the wire. -/
inductive NetRequest where
  | tokenRequest (body : List (String × String))
  | apiGet (url : String)
deriving DecidableEq

/-- The first grant shape: plain client credentials. -/
def plainAuthMethod (clientId clientSecret : String) :
    List (String × String) :=
  [("grant_type", "client_credentials"), ("client_id", clientId),
   ("client_secret", clientSecret)]

/-- The second grant shape: client credentials with the enterprise
subject-type hint. -/
def enterpriseAuthMethod (clientId clientSecret : String) :
    List (String × String) :=
  [("grant_type", "client_credentials"), ("client_id", clientId),
   ("client_secret", clientSecret), ("box_subject_type", "enterprise")]

/-- The `authMethods` array, in source order. -/
def authMethods (clientId clientSecret : String) :
    List (List (String × String)) :=
  [plainAuthMethod clientId clientSecret,
   enterpriseAuthMethod clientId clientSecret]

/-- The error message thrown when the last attempt yields a non-success
response. -/
def tokenFailMsg (status : Nat) (body : TokenBody) : String :=
  "Token request failed: " ++ toString status ++ " - "
    ++ jsDisplay (jsOr body.error_description body.error)

/-- The `for` loop over `authMethods`: each attempt issues one request;
a success response short-circuits; a failure on a non-last attempt is
swallowed; a failure on the last attempt is raised. -/
def runAuthMethods (m : List (String × String)) (o : AttemptOutcome)
    (rest : List (List (String × String) × AttemptOutcome)) :
    List NetRequest × Except String TokenBody :=
  let req := NetRequest.tokenRequest m
  match o, rest with
  | .response st body, rest' =>
    if respOk st then ([req], .ok body)
    else
      match rest' with
      | [] => ([req], .error (tokenFailMsg st body))
      | (m2, o2) :: more =>
        let r := runAuthMethods m2 o2 more
        (req :: r.1, r.2)
  | .thrown msg, [] => ([req], .error msg)
  | .thrown _, (m2, o2) :: more =>
    let r := runAuthMethods m2 o2 more
    (req :: r.1, r.2)

/-- `getAccessToken(clientId, clientSecret)` from the second variant:
`o1` and `o2` are the environment's outcomes for the plain and the
enterprise attempt respectively.  Returns the requests issued in order,
and either the parsed token body or the raised error message. -/
def getAccessToken (clientId clientSecret : String)
    (o1 o2 : AttemptOutcome) : List NetRequest × Except String TokenBody :=
  runAuthMethods (plainAuthMethod clientId clientSecret) o1
    [(enterpriseAuthMethod clientId clientSecret, o2)]

/- ### Single-file resource fetch (`getFileMetadata`, second variant and
`part_000`)

```js
async getFileMetadata(fileId, accessToken) {
    const response = await fetch(`${this.boxApiBase}/files/${fileId}`, ...);
    if (!response.ok) {
        const errorData = await response.json();
        throw new Error(`File metadata request failed: ` +
            `${response.status} - ${errorData.message || errorData.error}`);
    }
    return await response.json();
}
```
-/

/-- Error fields of a parsed resource-endpoint error body. -/
structure FileErrBody where
  message : Option String
  error : Option String
deriving DecidableEq

/-- Parsed `shared_link` sub-object of a file resource. -/
structure SharedLink where
  url : Option String
deriving DecidableEq

/-- Parsed `owned_by` sub-object of a file resource. -/
structure BoxUser where
  name : Option String
deriving DecidableEq

/-- Parsed `file_version` sub-object of a file resource. -/
structure FileVersion where
  version_number : Option String
deriving DecidableEq

/-- A parsed Box file resource, restricted to the fields the third
variant's `displayFileMetadata` reads. -/
structure BoxFile where
  id : Option String
  name : Option String
  type : Option String
  size : Option Nat
  created_at : Option String
  modified_at : Option String
  description : Option String
  owned_by : Option BoxUser
  shared_link : Option SharedLink
  file_version : Option FileVersion
  comment_count : Option Nat
  tags : Option (List String)
  extension : Option String
  sha1 : Option String
  has_collaborations : Bool
  is_externally_owned : Bool
deriving DecidableEq

/-- A response from the resource endpoint: the status together with the
parsed JSON body, viewed as an error body on failure and as a file
resource on success. -/
structure FileResp where
  status : Nat
  errBody : FileErrBody
  file : BoxFile

/-- A network interaction either produced a response or threw. -/
inductive HttpOutcome (α : Type) where
  | response (r : α)
  | thrown (msg : String)

/-- The error message thrown by the second variant's `getFileMetadata`
on a non-success response: note there is no fallback literal after
`message || error`, so two absent fields interpolate as "undefined". -/
def getFileMetadataErrMsg (status : Nat) (body : FileErrBody) : String :=
  "File metadata request failed: " ++ toString status ++ " - "
    ++ jsDisplay (jsOr body.message body.error)

/-- `getFileMetadata(fileId, accessToken)` from the second variant. -/
def getFileMetadata (fileId : String) (o : HttpOutcome FileResp) :
    List NetRequest × Except String BoxFile :=
  let req := NetRequest.apiGet ("https://api.box.com/2.0/files/" ++ fileId)
  match o with
  | .thrown msg => ([req], .error msg)
  | .response r =>
    ([req],
      if respOk r.status then .ok r.file
      else .error (getFileMetadataErrMsg r.status r.errBody))

/-- The error message thrown by the third variant's inline single-file
fetch on a non-success response: here a fallback literal IS present
(`message || error || 'Unknown error'`). -/
def fetchFileErrMsgV3 (status : Nat) (body : FileErrBody) : String :=
  toString status ++ " - " ++ jsOrD (jsOr body.message body.error)
    "Unknown error"

/- ### File-metadata renderer (third variant, `displayFileMetadata`)

Locals are computed exactly as in the source; `dateFmt` stands for
`x => new Date(x).toLocaleString()` (locale-dependent, left abstract).
`escapeHtml` is applied only where the source applies it: the file name,
the owner name and the description.  All other interpolations (id, type,
extension, version, dates, sha1, tags, shared-link url, ...) are inserted
verbatim.  Interpolating or escaping an `undefined` field is modelled as
the text "undefined" via `jsDisplay`.
-/

/-- `displayFileMetadata(file)` from the third variant; returns the HTML
written to the files container. -/
def displayFileMetadata (dateFmt : String → String) (file : BoxFile) :
    String :=
  if jsFalsy file.id then
    "<div class=\"loading\">No file metadata found or accessible.</div>"
  else
    let fileSize := match file.size with
      | some n => if n == 0 then "Unknown" else formatFileSize n
      | none => "Unknown"
    let createdAt := match jsTruthyOpt file.created_at with
      | some s => dateFmt s
      | none => "Unknown"
    let modifiedAt := match jsTruthyOpt file.modified_at with
      | some s => dateFmt s
      | none => "Unknown"
    let owner := match file.owned_by with
      | some u => jsDisplay u.name
      | none => "Unknown"
    let fileType := jsOrD file.type "Unknown"
    let description := jsOrD file.description "No description"
    let version := match file.file_version with
      | some fv => jsDisplay fv.version_number
      | none => "Unknown"
    let sha1 := jsOrD file.sha1 "Unknown"
    let extension := jsOrD file.extension "None"
    let commentCount := file.comment_count.getD 0
    let hasCollaborations := if file.has_collaborations then "Yes" else "No"
    let isExternallyOwned := if file.is_externally_owned then "Yes" else "No"
    let tags := match file.tags with
      | some ts => if ts.length > 0 then String.intercalate ", " ts
                   else "None"
      | none => "None"
    let sharedLink := match file.shared_link with
      | some sl => jsDisplay sl.url
      | none => "None"
    let fid := jsDisplay file.id
    "\n            <div class=\"files-header\">"
    ++ "\n                <h3>📄 File Metadata</h3>"
    ++ "\n                <p>Detailed information about the file</p>"
    ++ "\n            </div>"
    ++ "\n            <div class=\"file-item\">"
    ++ "\n                <div class=\"file-info\">"
    ++ "\n                    <div class=\"file-name\">📄 "
    ++ escapeHtml (jsDisplay file.name) ++ "</div>"
    ++ "\n                    <div class=\"file-details\">"
    ++ "\n                        <span class=\"file-id\">ID: "
    ++ fid ++ "</span>"
    ++ "\n                        <span class=\"file-size\">Size: "
    ++ fileSize ++ "</span>"
    ++ "\n                        <span class=\"file-type\">Type: "
    ++ fileType ++ "</span>"
    ++ "\n                        <span class=\"file-extension\">Extension: "
    ++ extension ++ "</span>"
    ++ "\n                        <span class=\"file-version\">Version: "
    ++ version ++ "</span>"
    ++ "\n                        <span class=\"file-owner\">Owner: "
    ++ escapeHtml owner ++ "</span>"
    ++ "\n                        <span class=\"file-created\">Created: "
    ++ createdAt ++ "</span>"
    ++ "\n                        <span class=\"file-modified\">Modified: "
    ++ modifiedAt ++ "</span>"
    ++ "\n                        <span class=\"file-comments\">Comments: "
    ++ toString commentCount ++ "</span>"
    ++ "\n                        <span class=\"file-collaborations\">Has Collaborations: "
    ++ hasCollaborations ++ "</span>"
    ++ "\n                        <span class=\"file-external\">Externally Owned: "
    ++ isExternallyOwned ++ "</span>"
    ++ "\n                        <span class=\"file-sha1\">SHA1: "
    ++ sha1 ++ "</span>"
    ++ "\n                        <span class=\"file-tags\">Tags: "
    ++ tags ++ "</span>"
    ++ "\n                        "
    ++ (if sharedLink != "None" then
          "<span class=\"file-shared-link\">Shared Link: " ++ sharedLink
            ++ "</span>"
        else "")
    ++ "\n                    </div>"
    ++ "\n                    <div class=\"file-description\">"
    ++ "\n                        <h4>Description:</h4>"
    ++ "\n                        <p>" ++ escapeHtml description ++ "</p>"
    ++ "\n                    </div>"
    ++ "\n                </div>"
    ++ "\n                <div class=\"file-actions\">"
    ++ "\n                    <button class=\"copy-button\" onclick=\"boxApp.copyToClipboard(\x27file-id-"
    ++ fid ++ "\x27)\" data-file-id=\"" ++ fid ++ "\">"
    ++ "\n                        Copy ID"
    ++ "\n                    </button>"
    ++ "\n                </div>"
    ++ "\n            </div>"
    ++ "\n        "

/- ### The fetch action pipelines (`fetchFileMetadata`, second and third
variants)

Both variants follow the same shape: read the query parameters, bail out
with an inline error and no network traffic when a required parameter is
missing, otherwise disable the button, run `try { token; file; render }`,
map a caught error through substring-based rewriting into the error
container, and in `finally` unconditionally re-enable the button with its
idle label.  The second variant checks `file_id` first and renders into
the metadata container; the third checks the credentials first and
renders into the files container.  `render` abstracts the variant's
`displayFileMetadata` call (which, like any step inside the `try`, may
throw).
-/

/-- The fetch control's observable state. -/
structure ButtonState where
  disabled : Bool
  label : String
deriving DecidableEq

/-- Observable outcome of one fetch action: the network requests issued
in order, the final container HTML, and the final button state. -/
structure FetchResult where
  requests : List NetRequest
  container : String
  button : ButtonState
deriving DecidableEq

/-- `showFilesError` / `showMetadataError`: an escaped inline error. -/
def errorDiv (msg : String) : String :=
  "<div class=\"error\">" ++ escapeHtml msg ++ "</div>"

/-- Idle label of the second variant's fetch button (the literal in the
source, including its mojibake bytes). -/
def idleLabelV2 : String := "üîç Fetch File Metadata"

/-- Idle label of the third variant's fetch button. -/
def idleLabelV3 : String := "📄 Get File Metadata"

/-- The second variant's catch-block message rewriting. -/
def remapErrorMessageV2 (msg : String) : String :=
  if containsSub msg "box_subject_id" then
    "Authentication error: Please check your Box application configuration. The app may need enterprise access or different authentication settings."
  else if containsSub msg "401" then
    "Authentication failed: Please verify your client_id and client_secret are correct."
  else if containsSub msg "403" then
    "Access denied: The application may not have permission to access this file or the Box API."
  else if containsSub msg "404" then
    "File not found: The specified file_id does not exist or is not accessible."
  else msg

/-- The third variant's catch-block message rewriting. -/
def remapErrorMessageV3 (msg : String) : String :=
  if containsSub msg "box_subject_id" then
    "Authentication error: Please check your Box application configuration."
  else if containsSub msg "401" then
    "Authentication failed: Please verify your client_id and client_secret are correct."
  else if containsSub msg "403" then
    "Access denied: The application may not have permission to access this file."
  else if containsSub msg "404" then
    "File not found: The file may not exist or the application may not have access to it."
  else if containsSub msg "400" then
    "Bad request: The API request format may be incorrect. Check console for details."
  else msg

/-- The inline error for absent credentials (same text in both
variants). -/
def missingCredentialsMsg : String :=
  "Client ID and Client Secret are required. Please add client_id and client_secret parameters to the URL."

/-- The inline error for an absent file id (same text in both
variants). -/
def missingFileIdMsg : String :=
  "File ID is required. Please add file_id parameter to the URL."

/-- The third variant's `getAccessToken`: authorization-code grant.  It
reads `auth_code` from the query string and throws when it is absent;
otherwise it issues one token request whose outcome `o` the environment
supplies. -/
def getAccessTokenAuthCode (q clientId clientSecret : String)
    (o : AttemptOutcome) : List NetRequest × Except String TokenBody :=
  match jsTruthyOpt (getParameter q "auth_code") with
  | none =>
    ([], .error "Authorization code is required. Please ensure the auth_code parameter is present in the URL.")
  | some authCode =>
    let req := NetRequest.tokenRequest
      [("grant_type", "authorization_code"), ("code", authCode),
       ("client_id", clientId), ("client_secret", clientSecret)]
    match o with
    | .thrown msg => ([req], .error msg)
    | .response st body =>
      ([req], if respOk st then .ok body else .error (tokenFailMsg st body))

/-- Environment for one run of the second variant's fetch action. -/
structure FetchEnvV2 where
  tokenO1 : AttemptOutcome
  tokenO2 : AttemptOutcome
  fileO : HttpOutcome FileResp

/-- Environment for one run of the third variant's fetch action. -/
structure FetchEnvV3 where
  tokenO : AttemptOutcome
  fileO : HttpOutcome FileResp

/-- `fetchFileMetadata` from the second variant (file-id guard first,
two-method client-credentials token fallback, helper `getFileMetadata`,
then render; `finally` restores the button). -/
def fetchFileMetadataV2 (q : String) (env : FetchEnvV2)
    (render : BoxFile → Except String String) (button0 : ButtonState) :
    FetchResult :=
  let fileId := getParameter q "file_id"
  let clientId := getParameter q "client_id"
  let clientSecret := getParameter q "client_secret"
  if jsFalsy fileId then
    { requests := [], container := errorDiv missingFileIdMsg,
      button := button0 }
  else if jsFalsy clientId || jsFalsy clientSecret then
    { requests := [], container := errorDiv missingCredentialsMsg,
      button := button0 }
  else
    let tk := getAccessToken (clientId.getD "") (clientSecret.getD "")
      env.tokenO1 env.tokenO2
    let afterTry : List NetRequest × Except String String :=
      match tk.2 with
      | .error msg => (tk.1, .error msg)
      | .ok tokenBody =>
        match jsTruthyOpt tokenBody.access_token with
        | none =>
          (tk.1, .error ("Failed to get access token: "
            ++ jsOrD tokenBody.error_description "Unknown error"))
        | some _tok =>
          let fm := getFileMetadata (fileId.getD "") env.fileO
          match fm.2 with
          | .error m => (tk.1 ++ fm.1, .error m)
          | .ok file =>
            match render file with
            | .ok html => (tk.1 ++ fm.1, .ok html)
            | .error m => (tk.1 ++ fm.1, .error m)
    let container := match afterTry.2 with
      | .ok html => html
      | .error msg =>
        errorDiv ("Failed to fetch file metadata: "
          ++ remapErrorMessageV2 msg)
    { requests := afterTry.1, container := container,
      button := { disabled := false, label := idleLabelV2 } }

/-- `fetchFileMetadata` from the third variant (credentials guard first,
authorization-code token helper, inline single-file fetch, then render;
`finally` restores the button). -/
def fetchFileMetadataV3 (q : String) (env : FetchEnvV3)
    (render : BoxFile → Except String String) (button0 : ButtonState) :
    FetchResult :=
  let clientId := getParameter q "client_id"
  let clientSecret := getParameter q "client_secret"
  let fileId := getParameter q "file_id"
  if jsFalsy clientId || jsFalsy clientSecret then
    { requests := [], container := errorDiv missingCredentialsMsg,
      button := button0 }
  else if jsFalsy fileId then
    { requests := [], container := errorDiv missingFileIdMsg,
      button := button0 }
  else
    let tk := getAccessTokenAuthCode q (clientId.getD "")
      (clientSecret.getD "") env.tokenO
    let afterTry : List NetRequest × Except String String :=
      match tk.2 with
      | .error msg => (tk.1, .error msg)
      | .ok tokenBody =>
        match jsTruthyOpt tokenBody.access_token with
        | none =>
          (tk.1, .error ("Failed to get access token: "
            ++ jsOrD tokenBody.error_description "Unknown error"))
        | some _tok =>
          let req2 := NetRequest.apiGet
            ("https://api.box.com/2.0/files/" ++ fileId.getD "")
          match env.fileO with
          | .thrown m => (tk.1 ++ [req2], .error m)
          | .response r =>
            if respOk r.status then
              match render r.file with
              | .ok html => (tk.1 ++ [req2], .ok html)
              | .error m => (tk.1 ++ [req2], .error m)
            else (tk.1 ++ [req2], .error (fetchFileErrMsgV3 r.status r.errBody))
    let container := match afterTry.2 with
      | .ok html => html
      | .error msg =>
        errorDiv ("Failed to fetch file metadata: "
          ++ remapErrorMessageV3 msg)
    { requests := afterTry.1, container := container,
      button := { disabled := false, label := idleLabelV3 } }

/- ## Claims -/

/-- Claim C1: `getAccessToken` issues its grant-shape attempts strictly in
source order (plain client credentials first, then client credentials with
`box_subject_type=enterprise`); whenever the first attempt receives a
non-success status and the second a success status, exactly those two
requests are issued in order, the second attempt's parsed body is
returned, and no error is raised from the first attempt. -/
theorem getAccessToken_fallback (clientId clientSecret : String)
    (s1 s2 : Nat) (b1 b2 : TokenBody)
    (h1 : respOk s1 = false) (h2 : respOk s2 = true) :
    authMethods clientId clientSecret =
      [plainAuthMethod clientId clientSecret,
       enterpriseAuthMethod clientId clientSecret] ∧
    getAccessToken clientId clientSecret (.response s1 b1)
        (.response s2 b2) =
      ([NetRequest.tokenRequest (plainAuthMethod clientId clientSecret),
        NetRequest.tokenRequest (enterpriseAuthMethod clientId clientSecret)],
       Except.ok b2) := by
  refine ⟨rfl, ?_⟩
  simp [getAccessToken, runAuthMethods, h1, h2]

/-- Witness for C1 at a concrete failing-then-succeeding pair. -/
theorem getAccessToken_fallback_witness :
    respOk 400 = false ∧ respOk 200 = true ∧
    getAccessToken "id" "secret"
        (.response 400 ⟨none, some "bad request", none⟩)
        (.response 200 ⟨some "tok", none, none⟩) =
      ([NetRequest.tokenRequest (plainAuthMethod "id" "secret"),
        NetRequest.tokenRequest (enterpriseAuthMethod "id" "secret")],
       Except.ok ⟨some "tok", none, none⟩) :=
  ⟨by decide, by decide,
    (getAccessToken_fallback "id" "secret" 400 200
      ⟨none, some "bad request", none⟩ ⟨some "tok", none, none⟩
      (by decide) (by decide)).2⟩

/-- Claim C2: when both grant-shape attempts receive non-success
responses, `getAccessToken` raises the error built from the LAST
attempt's status and error-description field, in the exact format
`Token request failed: <status> - <error_description or error>`; the
first attempt's status and body do not appear in the result. -/
theorem getAccessToken_totalFailure (clientId clientSecret : String)
    (s1 s2 : Nat) (b1 b2 : TokenBody)
    (h1 : respOk s1 = false) (h2 : respOk s2 = false) :
    (getAccessToken clientId clientSecret (.response s1 b1)
        (.response s2 b2)).2 =
      Except.error ("Token request failed: " ++ toString s2 ++ " - "
        ++ jsDisplay (jsOr b2.error_description b2.error)) := by
  simp [getAccessToken, runAuthMethods, h1, h2, tokenFailMsg]

/-- Witness for C2 at a concrete pair of failing attempts. -/
theorem getAccessToken_totalFailure_witness :
    respOk 400 = false ∧ respOk 401 = false ∧
    (getAccessToken "id" "secret"
        (.response 400 ⟨none, none, some "first error"⟩)
        (.response 401 ⟨none, some "bad credentials", none⟩)).2 =
      Except.error "Token request failed: 401 - bad credentials" := by
  refine ⟨by decide, by decide, ?_⟩
  have h := getAccessToken_totalFailure "id" "secret" 400 401
    ⟨none, none, some "first error"⟩ ⟨none, some "bad credentials", none⟩
    (by decide) (by decide)
  rw [h]
  congr 1

/-- Claim C5: when any required query parameter (`client_id`,
`client_secret` or `file_id`) is absent (or empty, i.e. falsy), both
single-fetch variants of `fetchFileMetadata` render an inline error
naming the missing parameter with remediation guidance and issue zero
network requests. -/
theorem fetchFileMetadata_missingInput (q : String) (env2 : FetchEnvV2)
    (env3 : FetchEnvV3) (r2 r3 : BoxFile → Except String String)
    (b2 b3 : ButtonState)
    (h : (jsFalsy (getParameter q "client_id")
        || jsFalsy (getParameter q "client_secret")
        || jsFalsy (getParameter q "file_id")) = true) :
    (fetchFileMetadataV2 q env2 r2 b2).requests = [] ∧
    (fetchFileMetadataV3 q env3 r3 b3).requests = [] ∧
    (fetchFileMetadataV2 q env2 r2 b2).container =
      errorDiv (if jsFalsy (getParameter q "file_id") then missingFileIdMsg
        else missingCredentialsMsg) ∧
    (fetchFileMetadataV3 q env3 r3 b3).container =
      errorDiv (if jsFalsy (getParameter q "client_id")
          || jsFalsy (getParameter q "client_secret")
        then missingCredentialsMsg else missingFileIdMsg) := by
  unfold fetchFileMetadataV2 fetchFileMetadataV3
  cases hf : jsFalsy (getParameter q "file_id") <;>
    cases hc1 : jsFalsy (getParameter q "client_id") <;>
      cases hc2 : jsFalsy (getParameter q "client_secret") <;>
        simp_all

/-- Witness for C5: an empty query string, all parameters missing. -/
theorem fetchFileMetadata_missingInput_witness :
    (fetchFileMetadataV3 "" ⟨.thrown "a", .thrown "b"⟩
        (fun _f => Except.ok "") ⟨false, idleLabelV3⟩).requests = [] ∧
    (fetchFileMetadataV3 "" ⟨.thrown "a", .thrown "b"⟩
        (fun _f => Except.ok "") ⟨false, idleLabelV3⟩).container =
      errorDiv missingCredentialsMsg := by
  obtain ⟨-, h2, -, h4⟩ := fetchFileMetadata_missingInput ""
    ⟨.thrown "a", .thrown "b", .thrown "c"⟩ ⟨.thrown "a", .thrown "b"⟩
    (fun _f => Except.ok "") (fun _f => Except.ok "")
    ⟨false, idleLabelV2⟩ ⟨false, idleLabelV3⟩ (by decide)
  refine ⟨h2, ?_⟩
  rw [h4]
  congr 1

/-- Claim C7: the fetch action always restores its control: starting from
the enabled idle button, every run of either variant — missing-input
bail-out, success, handled failure, or an exception thrown by token
acquisition, the resource fetch or rendering — ends with the button
enabled and carrying its idle label. -/
theorem fetchFileMetadata_buttonCleanup (q : String) (env2 : FetchEnvV2)
    (env3 : FetchEnvV3) (r2 r3 : BoxFile → Except String String) :
    (fetchFileMetadataV2 q env2 r2 ⟨false, idleLabelV2⟩).button =
      ⟨false, idleLabelV2⟩ ∧
    (fetchFileMetadataV3 q env3 r3 ⟨false, idleLabelV3⟩).button =
      ⟨false, idleLabelV3⟩ := by
  constructor
  · simp only [fetchFileMetadataV2]
    repeat' split
    all_goals rfl
  · simp only [fetchFileMetadataV3]
    repeat' split
    all_goals rfl

/-- A file resource with every optional field absent (used as the parse
of an error body viewed as a file). -/
def emptyBoxFile : BoxFile :=
  { id := none, name := none, type := none, size := none,
    created_at := none, modified_at := none, description := none,
    owned_by := none, shared_link := none, file_version := none,
    comment_count := none, tags := none, extension := none, sha1 := none,
    has_collaborations := false, is_externally_owned := false }

/-- Counterexample to C6: the second variant's `getFileMetadata` has NO
fallback literal — when the error body carries neither `message` nor
`error`, the raised message interpolates the text "undefined" and never
contains "Unknown error", contradicting the claim that a fallback
literal is used when both fields are absent. -/
theorem getFileMetadata_noFallback_cex :
    (getFileMetadata "42"
        (.response ⟨404, ⟨none, none⟩, emptyBoxFile⟩)).2 =
      Except.error "File metadata request failed: 404 - undefined" ∧
    containsSub "File metadata request failed: 404 - undefined"
      "Unknown error" = false := by
  constructor
  · rfl
  · decide


/-- A value selected by `jsTruthyOpt` is non-empty. -/
theorem jsTruthyOpt_ne_empty (a : Option String) (m : String)
    (hm : jsTruthyOpt a = some m) : (m == "") = false := by
  cases a with
  | none => simp [jsTruthyOpt] at hm
  | some s =>
    by_cases hs : s == ""
    · simp [jsTruthyOpt, hs] at hm
    · simp [jsTruthyOpt, hs] at hm
      subst hm
      exact Bool.eq_false_iff.mpr hs

/-- `a || b` yields the first operand when it is truthy. -/
theorem jsOr_of_truthy (a b : Option String) (m : String)
    (hm : jsTruthyOpt a = some m) : jsOr a b = some m := by
  cases a with
  | none => simp [jsTruthyOpt] at hm
  | some s =>
    by_cases hs : s == ""
    · simp [jsTruthyOpt, hs] at hm
    · simp [jsTruthyOpt, hs] at hm
      subst hm
      simp [jsOr, hs]

/-- `a || b` yields the second operand when the first is falsy. -/
theorem jsOr_of_falsy (a b : Option String) (hm : jsTruthyOpt a = none) :
    jsOr a b = b := by
  cases a with
  | none => simp [jsOr]
  | some s =>
    by_cases hs : s == ""
    · simp [jsOr, hs]
    · simp [jsTruthyOpt, hs] at hm

/-- Claim C6 as amended: for every non-success response from the
single-file GET endpoint, the raised error carries the HTTP status and an
upstream text preferring `message` then `error`; the third variant's
inline fetch falls back to the literal "Unknown error" when both fields
are falsy, while the second variant's `getFileMetadata` helper has no
fallback literal and, with both fields absent, interpolates the text
"undefined" instead. -/
theorem resourceFetchErrMsg_amended (fileId : String) (status : Nat)
    (body : FileErrBody) (f : BoxFile) (h : respOk status = false) :
    (getFileMetadata fileId (.response ⟨status, body, f⟩)).2 =
      Except.error (getFileMetadataErrMsg status body) ∧
    (∀ m, jsTruthyOpt body.message = some m →
      fetchFileErrMsgV3 status body = toString status ++ " - " ++ m ∧
      getFileMetadataErrMsg status body =
        "File metadata request failed: " ++ toString status ++ " - " ++ m) ∧
    (∀ e, jsTruthyOpt body.message = none → jsTruthyOpt body.error = some e →
      fetchFileErrMsgV3 status body = toString status ++ " - " ++ e ∧
      getFileMetadataErrMsg status body =
        "File metadata request failed: " ++ toString status ++ " - " ++ e) ∧
    (jsTruthyOpt body.message = none → jsTruthyOpt body.error = none →
      fetchFileErrMsgV3 status body =
        toString status ++ " - " ++ "Unknown error") ∧
    (body.message = none → body.error = none →
      getFileMetadataErrMsg status body =
        "File metadata request failed: " ++ toString status ++ " - "
          ++ "undefined") := by
  refine ⟨by simp [getFileMetadata, h], ?_, ?_, ?_, ?_⟩
  · intro m hm
    have h1 := jsOr_of_truthy body.message body.error m hm
    have h2 := jsTruthyOpt_ne_empty body.message m hm
    constructor
    · simp [fetchFileErrMsgV3, h1, jsOrD, jsTruthyOpt, h2]
    · simp [getFileMetadataErrMsg, h1, jsDisplay]
  · intro e hm he
    have h1 := jsOr_of_falsy body.message body.error hm
    have h2 := jsOr_of_truthy body.error none e he
    have h3 := jsTruthyOpt_ne_empty body.error e he
    have h4 : jsOr body.message body.error = some e := by
      rw [h1]
      cases hb : body.error with
      | none => rw [hb] at he; simp [jsTruthyOpt] at he
      | some t =>
        rw [hb] at he
        by_cases ht : t == ""
        · simp [jsTruthyOpt, ht] at he
        · simp [jsTruthyOpt, ht] at he
          subst he
          rfl
    constructor
    · simp [fetchFileErrMsgV3, h4, jsOrD, jsTruthyOpt, h3]
    · simp [getFileMetadataErrMsg, h4, jsDisplay]
  · intro hm he
    have h1 := jsOr_of_falsy body.message body.error hm
    simp only [fetchFileErrMsgV3, h1]
    cases hb : body.error with
    | none => simp [jsOrD, jsTruthyOpt]
    | some t =>
      rw [hb] at he
      by_cases ht : t == ""
      · simp [jsOrD, jsTruthyOpt, ht]
      · simp [jsTruthyOpt, ht] at he
  · intro hm he
    simp [getFileMetadataErrMsg, jsOr, jsDisplay, hm, he]

/-- Witness for the amended C6 at a concrete 404 with only `message`. -/
theorem resourceFetchErrMsg_amended_witness :
    respOk 404 = false ∧
    fetchFileErrMsgV3 404 ⟨some "Not Found", none⟩ = "404 - Not Found" ∧
    (getFileMetadata "42"
        (.response ⟨404, ⟨some "Not Found", none⟩, emptyBoxFile⟩)).2 =
      Except.error "File metadata request failed: 404 - Not Found" := by
  obtain ⟨h1, h2, -, -, -⟩ := resourceFetchErrMsg_amended "42" 404
    ⟨some "Not Found", none⟩ emptyBoxFile (by decide)
  obtain ⟨h3, h4⟩ := h2 "Not Found" (by decide)
  refine ⟨by decide, ?_, ?_⟩
  · rw [h3]
    congr 1
  · rw [h1, h4]
    congr 2

/-- Counterexample to C8: for a key that is neither "current-url" nor a
synthetic file-id key and is absent from the query parameters,
`copyToClipboard` does NOT surface a failure notification — it copies the
empty string, and when the clipboard write resolves it shows the same
transient confirmation as a successful copy. -/
theorem copyToClipboard_noValue_cex :
    copyToClipboard "missing_key" "" "https://example.test/page"
        (fun _t => true) =
      { written := "", feedback := .confirmation } ∧
    copyToClipboard "missing_key" "" "https://example.test/page"
        (fun _t => true) ≠
      { written := "",
        feedback := .failureAlert "Failed to copy to clipboard" } := by
  constructor
  · rfl
  · decide

/-- Claim C8 as amended: on the no-value path (key neither "current-url"
nor prefixed "file-id-", and absent from the query parameters) the
resolved text is the empty string, which is still written to the
clipboard; the basic failure notification appears only when the clipboard
write itself rejects, and otherwise the transient confirmation (reverting
after `copyFeedbackRevertDelayMs`) is shown exactly as for a successful
copy. -/
theorem copyToClipboard_noValue_amended (key q href : String)
    (clipboardOk : String → Bool)
    (h1 : key ≠ "current-url")
    (h2 : isPrefixL "file-id-".data key.data = false)
    (h3 : getParameter q key = none) :
    (copyToClipboard key q href clipboardOk).written = "" ∧
    (copyToClipboard key q href clipboardOk).feedback =
      (if clipboardOk "" then CopyFeedback.confirmation
       else CopyFeedback.failureAlert "Failed to copy to clipboard") := by
  have hk : (key == "current-url") = false := by
    simpa using h1
  simp only [copyToClipboard, hk, h2, h3, jsOr]
  cases hok : clipboardOk "" <;> simp [hok]

/-- Witness for the amended C8: a failing clipboard write on the
no-value path. -/
theorem copyToClipboard_noValue_amended_witness :
    (copyToClipboard "missing_key" "" "https://example.test/page"
        (fun _t => false)).feedback =
      CopyFeedback.failureAlert "Failed to copy to clipboard" := by
  have h := copyToClipboard_noValue_amended "missing_key" ""
    "https://example.test/page" (fun _t => false) (by decide) (by decide)
    (by decide)
  simpa using h.2

/-- A file resource whose upstream-controlled `tags` field carries a
script tag (the failing input for claim C3). -/
def scriptTagsFile : BoxFile :=
  { emptyBoxFile with
    id := some "123",
    name := some "report.pdf",
    tags := some ["<script>alert(1)</script>"] }

set_option maxRecDepth 100000 in
/-- Claim C3 (code bug): `escapeHtml` does neutralize "<script>" and the
parameter renderer escapes both key and value, but the third variant's
`displayFileMetadata` interpolates `tags` (likewise sha1, extension,
shared-link url, type, version, dates) WITHOUT escaping, so a file whose
tags contain "<script>" yields rendered HTML that still contains the
unescaped "<script>" substring — contradicting the claim (and the code's
own XSS-protection stated intent). -/
theorem displayFileMetadata_unescapedScript :
    containsSub (escapeHtml "<script>alert(1)</script>") "<script>"
        = false ∧
    containsSub (createParameterItem "<script>" "<script>") "<script>"
        = false ∧
    containsSub (displayFileMetadata (fun s => s) scriptTagsFile)
        "<script>" = true := by
  refine ⟨by decide, by decide, ?_⟩
  decide

/- ### Structural lemmas about the query-string model, used for C9. -/

theorem splitAmp_ne_nil (cs : List Char) : splitAmp cs ≠ [] := by
  induction cs with
  | nil => simp [splitAmp]
  | cons c rest ih =>
    simp only [splitAmp]
    by_cases hc : c = '&'
    · simp [hc]
    · simp only [hc, if_false]
      cases h : splitAmp rest with
      | nil => simp
      | cons p ps => simp

theorem splitAmp_no_amp (cs : List Char) :
    ∀ p ∈ splitAmp cs, '&' ∉ p := by
  induction cs with
  | nil =>
    intro p hp
    simp [splitAmp] at hp
    subst hp
    simp
  | cons c rest ih =>
    intro p hp
    simp only [splitAmp] at hp
    by_cases hc : c = '&'
    · rw [if_pos hc] at hp
      rcases List.mem_cons.mp hp with h | h
      · subst h; simp
      · exact ih p h
    · rw [if_neg hc] at hp
      cases hsa : splitAmp rest with
      | nil => exact absurd hsa (splitAmp_ne_nil rest)
      | cons q qs =>
        rw [hsa] at hp
        rcases List.mem_cons.mp hp with h | h
        · subst h
          intro hmem
          rcases List.mem_cons.mp hmem with h' | h'
          · exact hc h'.symm
          · exact ih q (by rw [hsa]; exact List.mem_cons_self q qs) h'
        · exact ih p (by rw [hsa]; exact List.mem_cons_of_mem q h)

theorem splitAmp_subset (cs : List Char) :
    ∀ p ∈ splitAmp cs, ∀ c ∈ p, c ∈ cs := by
  induction cs with
  | nil =>
    intro p hp c hc
    simp [splitAmp] at hp
    subst hp
    simp at hc
  | cons d rest ih =>
    intro p hp c hc
    simp only [splitAmp] at hp
    by_cases hd : d = '&'
    · rw [if_pos hd] at hp
      rcases List.mem_cons.mp hp with h | h
      · subst h; simp at hc
      · exact List.mem_cons_of_mem d (ih p h c hc)
    · rw [if_neg hd] at hp
      cases hsa : splitAmp rest with
      | nil => exact absurd hsa (splitAmp_ne_nil rest)
      | cons q qs =>
        rw [hsa] at hp
        rcases List.mem_cons.mp hp with h | h
        · subst h
          rcases List.mem_cons.mp hc with h' | h'
          · simp [h']
          · exact List.mem_cons_of_mem d
              (ih q (by rw [hsa]; exact List.mem_cons_self q qs) c h')
        · exact List.mem_cons_of_mem d
            (ih p (by rw [hsa]; exact List.mem_cons_of_mem q h) c hc)

theorem splitFirstEq_no_eq (cs : List Char) : '=' ∉ (splitFirstEq cs).1 := by
  induction cs with
  | nil => simp [splitFirstEq]
  | cons c rest ih =>
    simp only [splitFirstEq]
    by_cases hc : c = '='
    · simp [hc]
    · simp only [hc, if_false]
      intro h
      rcases List.mem_cons.mp h with h' | h'
      · exact hc h'.symm
      · exact ih h'

theorem splitFirstEq_subset (cs : List Char) :
    (∀ c ∈ (splitFirstEq cs).1, c ∈ cs) ∧
    (∀ c ∈ (splitFirstEq cs).2, c ∈ cs) := by
  induction cs with
  | nil => simp [splitFirstEq]
  | cons c rest ih =>
    simp only [splitFirstEq]
    by_cases hc : c = '='
    · rw [if_pos hc]
      refine ⟨by simp, ?_⟩
      intro d hd
      exact List.mem_cons_of_mem c hd
    · rw [if_neg hc]
      refine ⟨?_, ?_⟩
      · intro d hd
        rcases List.mem_cons.mp hd with h | h
        · simp [h]
        · exact List.mem_cons_of_mem c (ih.1 d h)
      · intro d hd
        exact List.mem_cons_of_mem c (ih.2 d hd)

theorem splitFirstEq_append (k v : List Char) (hk : '=' ∉ k) :
    splitFirstEq (k ++ '=' :: v) = (k, v) := by
  induction k with
  | nil => simp [splitFirstEq]
  | cons c k' ih =>
    have hc : c ≠ '=' := fun h => hk (h ▸ List.mem_cons_self c k')
    simp only [List.cons_append, splitFirstEq, hc, if_false, List.append_eq]
    rw [ih (fun h => hk (List.mem_cons_of_mem c h))]

theorem splitAmp_of_no_amp (cs : List Char) (h : '&' ∉ cs) :
    splitAmp cs = [cs] := by
  induction cs with
  | nil => rfl
  | cons c rest ih =>
    have hc : ¬c = '&' := fun hh => h (hh ▸ List.mem_cons_self c rest)
    simp only [splitAmp, hc, if_false]
    rw [ih (fun hh => h (List.mem_cons_of_mem c hh))]

theorem splitAmp_append_amp (a cs : List Char) (h : '&' ∉ a) :
    splitAmp (a ++ '&' :: cs) = a :: splitAmp cs := by
  induction a with
  | nil => simp [splitAmp]
  | cons c a' ih =>
    have hc : ¬c = '&' := fun hh => h (hh ▸ List.mem_cons_self c a')
    simp only [List.cons_append, splitAmp, hc, if_false, List.append_eq]
    rw [ih (fun hh => h (List.mem_cons_of_mem c hh))]

/-- Well-formedness of a parsed pair: keys hold no separator and no
leading-strip character, values hold no pair separator. -/
def WFpair (kv : List Char × List Char) : Prop :=
  '&' ∉ kv.1 ∧ '=' ∉ kv.1 ∧ '&' ∉ kv.2 ∧ '?' ∉ kv.1

theorem joinAmp_cons (p : List Char) (ps : List (List Char)) :
    ∃ t, joinAmp (p :: ps) = p ++ t := by
  cases ps with
  | nil => exact ⟨[], by simp [joinAmp]⟩
  | cons q rest => exact ⟨'&' :: joinAmp (q :: rest), rfl⟩

theorem strip_serialize (ps : List (List Char × List Char))
    (h : ∀ kv ∈ ps, WFpair kv) :
    stripLeadingQuestion (serializePairsL ps) = serializePairsL ps := by
  cases ps with
  | nil => rfl
  | cons kv rest =>
    obtain ⟨k, v⟩ := kv
    have hk : '?' ∉ k := (h (k, v) (List.mem_cons_self _ _)).2.2.2
    obtain ⟨t, ht⟩ := joinAmp_cons (k ++ '=' :: v)
      (rest.map (fun kv => kv.1 ++ '=' :: kv.2))
    have hser : serializePairsL ((k, v) :: rest) = (k ++ '=' :: v) ++ t := ht
    rw [hser]
    cases k with
    | nil => simp [stripLeadingQuestion]
    | cons c k' =>
      have hc : c ≠ '?' := fun hh => hk (hh ▸ List.mem_cons_self c k')
      simp [stripLeadingQuestion, hc]

theorem parse_serialize_core (ps : List (List Char × List Char))
    (h : ∀ kv ∈ ps, WFpair kv) :
    ((splitAmp (serializePairsL ps)).filter (fun p => !p.isEmpty)).map
        splitFirstEq = ps := by
  induction ps with
  | nil => rfl
  | cons kv rest ih =>
    obtain ⟨k, v⟩ := kv
    obtain ⟨hk_amp, hk_eq, hv_amp, -⟩ := h (k, v) (List.mem_cons_self _ _)
    have hpiece_amp : '&' ∉ k ++ '=' :: v := by
      intro hmem
      rcases List.mem_append.mp hmem with h1 | h1
      · exact hk_amp h1
      · rcases List.mem_cons.mp h1 with h2 | h2
        · exact absurd h2 (by decide)
        · exact hv_amp h2
    have hne : (k ++ '=' :: v).isEmpty = false := by
      cases k <;> rfl
    cases rest with
    | nil =>
      show ((splitAmp (k ++ '=' :: v)).filter (fun p => !p.isEmpty)).map
          splitFirstEq = [(k, v)]
      rw [splitAmp_of_no_amp _ hpiece_amp]
      simp [List.filter, hne, splitFirstEq_append k v hk_eq]
    | cons kv2 rest2 =>
      have hser : serializePairsL ((k, v) :: kv2 :: rest2)
          = (k ++ '=' :: v) ++ '&' :: serializePairsL (kv2 :: rest2) := rfl
      rw [hser, splitAmp_append_amp _ _ hpiece_amp]
      have ih' := ih (fun kv hkv => h kv (List.mem_cons_of_mem _ hkv))
      simp only [List.filter_cons, hne, Bool.not_false, if_true,
        List.map_cons]
      rw [splitFirstEq_append k v hk_eq, ih']

theorem parse_serialize (ps : List (List Char × List Char))
    (h : ∀ kv ∈ ps, WFpair kv) :
    parsePairsL (serializePairsL ps) = ps := by
  unfold parsePairsL
  rw [strip_serialize ps h]
  exact parse_serialize_core ps h

theorem parsePairs_WF (cs : List Char)
    (hq : '?' ∉ stripLeadingQuestion cs) :
    ∀ kv ∈ parsePairsL cs, WFpair kv := by
  intro kv hkv
  unfold parsePairsL at hkv
  rcases List.mem_map.mp hkv with ⟨p, hp, hkv'⟩
  have hpmem : p ∈ splitAmp (stripLeadingQuestion cs) :=
    (List.mem_filter.mp hp).1
  have hp_amp : '&' ∉ p := splitAmp_no_amp _ p hpmem
  have hp_sub : ∀ c ∈ p, c ∈ stripLeadingQuestion cs :=
    splitAmp_subset _ p hpmem
  subst hkv'
  refine ⟨?_, splitFirstEq_no_eq p, ?_, ?_⟩
  · intro hc; exact hp_amp ((splitFirstEq_subset p).1 '&' hc)
  · intro hc; exact hp_amp ((splitFirstEq_subset p).2 '&' hc)
  · intro hc; exact hq (hp_sub '?' ((splitFirstEq_subset p).1 '?' hc))

theorem lookupFirst_isSome_of_mem (l : List (String × String))
    (k v : String) (h : (k, v) ∈ l) :
    ∃ v', lookupFirst l k = some v' := by
  induction l with
  | nil => simp at h
  | cons kv rest ih =>
    obtain ⟨k0, v0⟩ := kv
    by_cases hk : k0 == k
    · exact ⟨v0, by simp [lookupFirst, hk]⟩
    · rcases List.mem_cons.mp h with h1 | h1
      · rw [Prod.mk.injEq] at h1
        exact absurd (beq_iff_eq.mpr h1.1.symm) hk
      · obtain ⟨v', hv'⟩ := ih h1
        exact ⟨v', by simp only [lookupFirst, hk, if_false]; exact hv'⟩

theorem objGet_objSet (acc : List (String × String)) (k0 v0 k : String) :
    objGet (objSet acc (k0, v0)) k
      = if k0 == k then some v0 else objGet acc k := by
  induction acc with
  | nil =>
    by_cases hk : k0 == k <;> simp [objSet, objGet, lookupFirst, hk]
  | cons kv rest ih =>
    obtain ⟨k1, v1⟩ := kv
    by_cases h1 : k1 == k0
    · simp only [objSet, h1, if_pos]
      by_cases hk : k0 == k
      · have hk1 : (k1 == k) = true := by
          rw [beq_iff_eq] at h1 hk ⊢
          exact h1.trans hk
        simp [objGet, lookupFirst, hk1, hk]
      · have hk1 : (k1 == k) = false := by
          rw [beq_iff_eq] at h1
          subst h1
          simpa using hk
        simp [objGet, lookupFirst, hk1, hk]
    · simp only [objSet, h1, if_neg, Bool.not_eq_true]
      by_cases hk1 : k1 == k
      · have hk0 : (k0 == k) = false := by
          rw [beq_iff_eq] at hk1
          subst hk1
          by_cases hB : (k0 == k1) = true
          · exact absurd (by rw [beq_iff_eq] at hB ⊢; exact hB.symm) h1
          · simpa using hB
        simp [objGet, lookupFirst, hk1, hk0]
      · simp only [objGet, lookupFirst, hk1, if_false] at ih ⊢
        exact ih

theorem objGet_foldl (l acc : List (String × String)) (k : String) :
    objGet (l.foldl objSet acc) k
      = match lookupLast l k with
        | some v => some v
        | none => objGet acc k := by
  induction l generalizing acc with
  | nil => simp [lookupLast]
  | cons kv rest ih =>
    obtain ⟨k0, v0⟩ := kv
    simp only [List.foldl_cons]
    rw [ih]
    show _ = match lookupLast ((k0, v0) :: rest) k with
      | some v => some v
      | none => objGet acc k
    simp only [lookupLast]
    cases hll : lookupLast rest k with
    | some v => simp
    | none =>
      simp only []
      rw [objGet_objSet]
      by_cases hk : k0 == k <;> simp [hk]

theorem getParametersObject_lookupLast (q k : String) :
    objGet (getParametersObject q) k = lookupLast (searchEntries q) k := by
  unfold getParametersObject
  rw [objGet_foldl]
  cases h : lookupLast (searchEntries q) k <;>
    simp [objGet, lookupFirst]

theorem lookupLast_eq_none (l : List (String × String)) (k : String)
    (h : k ∉ l.map Prod.fst) : lookupLast l k = none := by
  induction l with
  | nil => rfl
  | cons kv rest ih =>
    obtain ⟨k0, v0⟩ := kv
    simp only [List.map_cons, List.mem_cons, not_or] at h
    have hk0 : (k0 == k) = false := by
      by_cases hB : (k0 == k) = true
      · rw [beq_iff_eq] at hB
        exact absurd hB.symm h.1
      · simpa using hB
    simp [lookupLast, ih h.2, hk0]

theorem lookupFirst_eq_lookupLast (l : List (String × String)) (k : String)
    (h : (l.map Prod.fst).Nodup) : lookupFirst l k = lookupLast l k := by
  induction l with
  | nil => rfl
  | cons kv rest ih =>
    obtain ⟨k0, v0⟩ := kv
    simp only [List.map_cons, List.nodup_cons] at h
    obtain ⟨hnot, hnd⟩ := h
    by_cases hk : k0 == k
    · have hmem : k ∉ rest.map Prod.fst := by
        rw [beq_iff_eq] at hk
        subst hk
        exact hnot
      simp [lookupFirst, lookupLast, hk, lookupLast_eq_none rest k hmem]
    · simp only [lookupFirst, lookupLast, hk, if_false]
      rw [ih hnd]
      cases lookupLast rest k <;> simp

/-- Counterexample to C9: with the duplicate-key query string "a=1&a=2",
the key lookup `getParameter` (platform `URLSearchParams.get`) returns
the FIRST value while `getParametersObject` keeps the LAST, so the two
operations disagree — refuting "duplicate keys keep only the last-seen
value (so get/getParametersObject agree on it)". -/
theorem queryDuplicates_cex :
    getParameter "a=1&a=2" "a" = some "1" ∧
    objGet (getParametersObject "a=1&a=2") "a" = some "2" ∧
    getParameter "a=1&a=2" "a"
      ≠ objGet (getParametersObject "a=1&a=2") "a" := by
  refine ⟨rfl, rfl, by decide⟩

/-- Claim C9 as amended: over the identity-codec model of
`URLSearchParams` (faithful for query strings without percent escapes or
plus signs), parsing then re-serializing is idempotent whenever the
stripped query string contains no further question mark; every key
present in the query string is retrievable via `getParameter`;
`getParametersObject` keeps the LAST value for a duplicated key while
`getParameter` returns the FIRST; and the two agree whenever the keys
are duplicate-free. -/
theorem queryParams_amended :
    (∀ q : String, '?' ∉ stripLeadingQuestion q.data →
      reserializeQuery (reserializeQuery q) = reserializeQuery q) ∧
    (∀ (q k v : String), (k, v) ∈ searchEntries q →
      ∃ v', getParameter q k = some v') ∧
    (∀ q k : String,
      objGet (getParametersObject q) k = lookupLast (searchEntries q) k ∧
      getParameter q k = lookupFirst (searchEntries q) k) ∧
    (∀ q k : String, ((searchEntries q).map Prod.fst).Nodup →
      objGet (getParametersObject q) k = getParameter q k) := by
  refine ⟨?_, ?_, ?_, ?_⟩
  · intro q hq
    unfold reserializeQuery
    congr 1
    show serializePairsL
        (parsePairsL (serializePairsL (parsePairsL q.data))) = _
    rw [parse_serialize _ (parsePairs_WF q.data hq)]
  · intro q k v h
    exact lookupFirst_isSome_of_mem _ k v h
  · intro q k
    exact ⟨getParametersObject_lookupLast q k, rfl⟩
  · intro q k h
    rw [getParametersObject_lookupLast,
      ← lookupFirst_eq_lookupLast _ _ h]
    rfl

/-- Witness for the amended C9 at concrete query strings. -/
theorem queryParams_amended_witness :
    reserializeQuery (reserializeQuery "b=2&a=1&a=3")
      = reserializeQuery "b=2&a=1&a=3" ∧
    (∃ v', getParameter "a=1&b=2" "a" = some v') ∧
    objGet (getParametersObject "c=7&d=8") "d"
      = getParameter "c=7&d=8" "d" :=
  ⟨queryParams_amended.1 "b=2&a=1&a=3" (by decide),
   queryParams_amended.2.1 "a=1&b=2" "a" "1" (by decide),
   queryParams_amended.2.2.2 "c=7&d=8" "d" (by decide)⟩
